import Mathlib

/-!
Shallow embedding of the provider-abstraction and configuration-resolution
layer of the csr-tmf-portal repository, together with proofs about it.

Sources embedded:
  - container/backend/app/core/config.py   (pydantic settings models,
    conditional provider sub-config validators, memoized get_settings)
  - container/backend/app/core/providers.py (pydantic data contracts,
    provider registry / factory)

Modelling conventions:
  - Python floats are modelled as rationals (Rat); every float literal in
    the source is exactly representable.
  - Python datetime values are modelled as integers (epoch microseconds);
    their serialized form is invertible, which is all the proofs use.
  - The process environment is a record of typed optional values, one per
    environment variable read by the source; a missing variable is none.
    (pydantic performs the string-to-int/bool parsing; the embedding works
    with the already-parsed value.)
  - pydantic BaseSettings fields declared with Field(...) (required, no
    default) fail resolution when their variable is absent; fields with a
    default fall back to it.  The error value records the model (backend
    family) and field name, as pydantic ValidationError locations do.
-/

/-- One pydantic validation error location: the settings model (backend
family) it belongs to and the offending field name. -/
structure FieldError where
  family : String
  fieldName : String
deriving DecidableEq, Repr

/-- A resolution failure: the list of error locations carried by the single
ValidationError that pydantic raises for the whole model. -/
abbrev ConfigError := List FieldError

/-- The error payloads of an Except, [] on success; used to collect
sub-model errors into the single top-level error. -/
def errList {α : Type} : Except ConfigError α → ConfigError
  | .ok _ => []
  | .error es => es

/-- The process environment, restricted to the variables config.py reads.
A field is none when the variable is unset.  (The three S3 prefix
variables and the API/performance/compliance scalar settings of
SystemConfig are not read by any claim and are modelled by their source
defaults.) -/
structure Env where
  ENVIRONMENT : Option String := none
  DEBUG : Option Bool := none
  LOG_LEVEL : Option String := none
  AI_PROVIDER : Option String := none
  SEARCH_PROVIDER : Option String := none
  VECTOR_PROVIDER : Option String := none
  BEDROCK_REGION : Option String := none
  BEDROCK_CLAUDE_MODEL : Option String := none
  BEDROCK_TITAN_MODEL : Option String := none
  BEDROCK_MAX_TOKENS : Option Int := none
  BEDROCK_TEMPERATURE : Option Rat := none
  DATABRICKS_WORKSPACE_URL : Option String := none
  DATABRICKS_TOKEN : Option String := none
  DATABRICKS_CLUSTER_ID : Option String := none
  DATABRICKS_MODEL_ENDPOINT : Option String := none
  DATABRICKS_VECTOR_ENDPOINT : Option String := none
  OPENSEARCH_ENDPOINT : Option String := none
  OPENSEARCH_REGION : Option String := none
  OPENSEARCH_INDEX : Option String := none
  OPENSEARCH_USE_SSL : Option Bool := none
  OPENSEARCH_VERIFY_CERTS : Option Bool := none
  S3_BUCKET_NAME : Option String := none
  S3_REGION : Option String := none
  DELTA_CATALOG : Option String := none
  DELTA_SCHEMA : Option String := none
  DELTA_DOCUMENTS_TABLE : Option String := none
  DELTA_CHUNKS_TABLE : Option String := none
  DELTA_AUDIT_TABLE : Option String := none
  REDIS_HOST : Option String := none
  REDIS_PORT : Option Int := none
  REDIS_DB : Option Int := none
  REDIS_PASSWORD : Option String := none
  REDIS_TTL_SECONDS : Option Int := none
  SECRET_KEY : Option String := none
  JWT_ALGORITHM : Option String := none
  ACCESS_TOKEN_EXPIRE_MINUTES : Option Int := none
  REFRESH_TOKEN_EXPIRE_DAYS : Option Int := none
  CORS_ORIGINS : Option (List String) := none
  CORS_ALLOW_CREDENTIALS : Option Bool := none

/-- config.py: BedrockConfig — every field has a default, so construction
from the environment never fails. -/
structure BedrockConfig where
  region : String
  claude_model_id : String
  titan_model_id : String
  max_tokens : Int
  temperature : Rat
deriving DecidableEq, Repr

def BedrockConfig.fromEnv (e : Env) : BedrockConfig :=
  { region := e.BEDROCK_REGION.getD "us-east-1",
    claude_model_id := e.BEDROCK_CLAUDE_MODEL.getD "anthropic.claude-3-sonnet-20240229-v1:0",
    titan_model_id := e.BEDROCK_TITAN_MODEL.getD "amazon.titan-text-express-v1",
    max_tokens := e.BEDROCK_MAX_TOKENS.getD 4000,
    temperature := e.BEDROCK_TEMPERATURE.getD (1/10) }

/-- config.py: DatabricksConfig — all five fields are declared
Field(..., env=...), i.e. required with no default. -/
structure DatabricksConfig where
  workspace_url : String
  token : String
  cluster_id : String
  model_serving_endpoint : String
  vector_search_endpoint : String
deriving DecidableEq, Repr

/-- The required DatabricksConfig fields whose environment variable is
unset, in field declaration order (the fields pydantic reports missing). -/
def DatabricksConfig.requiredMissing (e : Env) : List String :=
  (if e.DATABRICKS_WORKSPACE_URL.isNone then ["workspace_url"] else []) ++
  (if e.DATABRICKS_TOKEN.isNone then ["token"] else []) ++
  (if e.DATABRICKS_CLUSTER_ID.isNone then ["cluster_id"] else []) ++
  (if e.DATABRICKS_MODEL_ENDPOINT.isNone then ["model_serving_endpoint"] else []) ++
  (if e.DATABRICKS_VECTOR_ENDPOINT.isNone then ["vector_search_endpoint"] else [])

def DatabricksConfig.fromEnv (e : Env) : Except ConfigError DatabricksConfig :=
  match e.DATABRICKS_WORKSPACE_URL, e.DATABRICKS_TOKEN, e.DATABRICKS_CLUSTER_ID,
        e.DATABRICKS_MODEL_ENDPOINT, e.DATABRICKS_VECTOR_ENDPOINT with
  | some w, some t, some c, some m, some v =>
      .ok { workspace_url := w, token := t, cluster_id := c,
            model_serving_endpoint := m, vector_search_endpoint := v }
  | _, _, _, _, _ =>
      .error ((DatabricksConfig.requiredMissing e).map fun f => ⟨"DatabricksConfig", f⟩)

/-- config.py: OpenSearchConfig — endpoint is required, the rest default. -/
structure OpenSearchConfig where
  endpoint : String
  region : String
  index_name : String
  use_ssl : Bool
  verify_certs : Bool
deriving DecidableEq, Repr

def OpenSearchConfig.fromEnv (e : Env) : Except ConfigError OpenSearchConfig :=
  match e.OPENSEARCH_ENDPOINT with
  | some ep =>
      .ok { endpoint := ep,
            region := e.OPENSEARCH_REGION.getD "us-east-1",
            index_name := e.OPENSEARCH_INDEX.getD "clinical-documents",
            use_ssl := e.OPENSEARCH_USE_SSL.getD true,
            verify_certs := e.OPENSEARCH_VERIFY_CERTS.getD true }
  | none => .error [⟨"OpenSearchConfig", "endpoint"⟩]

/-- config.py: S3Config — bucket_name is required, the rest default.  The
three prefix fields keep their source defaults (their env overrides are
not exercised by any claim). -/
structure S3Config where
  bucket_name : String
  region : String
  csr_prefix : String
  tmf_prefix : String
  processed_prefix : String
deriving DecidableEq, Repr

def S3Config.fromEnv (e : Env) : Except ConfigError S3Config :=
  match e.S3_BUCKET_NAME with
  | some b =>
      .ok { bucket_name := b,
            region := e.S3_REGION.getD "us-east-1",
            csr_prefix := "csr/",
            tmf_prefix := "tmf/",
            processed_prefix := "processed/" }
  | none => .error [⟨"S3Config", "bucket_name"⟩]

/-- config.py: DeltaConfig — every field has a default. -/
structure DeltaConfig where
  catalog_name : String
  schema_name : String
  documents_table : String
  chunks_table : String
  audit_table : String
deriving DecidableEq, Repr

def DeltaConfig.fromEnv (e : Env) : DeltaConfig :=
  { catalog_name := e.DELTA_CATALOG.getD "clinical_portal",
    schema_name := e.DELTA_SCHEMA.getD "main",
    documents_table := e.DELTA_DOCUMENTS_TABLE.getD "documents",
    chunks_table := e.DELTA_CHUNKS_TABLE.getD "document_chunks",
    audit_table := e.DELTA_AUDIT_TABLE.getD "audit_log" }

/-- config.py: RedisConfig — every field has a default (password defaults
to None). -/
structure RedisConfig where
  host : String
  port : Int
  db : Int
  password : Option String
  ttl_seconds : Int
deriving DecidableEq, Repr

def RedisConfig.fromEnv (e : Env) : RedisConfig :=
  { host := e.REDIS_HOST.getD "localhost",
    port := e.REDIS_PORT.getD 6379,
    db := e.REDIS_DB.getD 0,
    password := e.REDIS_PASSWORD,
    ttl_seconds := e.REDIS_TTL_SECONDS.getD 3600 }

/-- config.py: SecurityConfig — secret_key is required, the rest default. -/
structure SecurityConfig where
  secret_key : String
  algorithm : String
  access_token_expire_minutes : Int
  refresh_token_expire_days : Int
  cors_origins : List String
  cors_allow_credentials : Bool
deriving DecidableEq, Repr

def SecurityConfig.fromEnv (e : Env) : Except ConfigError SecurityConfig :=
  match e.SECRET_KEY with
  | some k =>
      .ok { secret_key := k,
            algorithm := e.JWT_ALGORITHM.getD "HS256",
            access_token_expire_minutes := e.ACCESS_TOKEN_EXPIRE_MINUTES.getD 30,
            refresh_token_expire_days := e.REFRESH_TOKEN_EXPIRE_DAYS.getD 7,
            cors_origins := e.CORS_ORIGINS.getD ["http://localhost:3000"],
            cors_allow_credentials := e.CORS_ALLOW_CREDENTIALS.getD true }
  | none => .error [⟨"SecurityConfig", "secret_key"⟩]

/-- config.py: the Literal type of the environment field. -/
inductive EnvName
  | development
  | staging
  | production
deriving DecidableEq, Repr

/-- config.py: Literal["bedrock", "databricks"], the ai_provider values. -/
inductive AIProviderName
  | bedrock
  | databricks
deriving DecidableEq, Repr

/-- config.py: Literal["opensearch", "databricks_vector"], the values of
search_provider and vector_provider. -/
inductive SearchProviderName
  | opensearch
  | databricks_vector
deriving DecidableEq, Repr

def parseEnvironment : Option String → Except ConfigError EnvName
  | none => .ok .development
  | some "development" => .ok .development
  | some "staging" => .ok .staging
  | some "production" => .ok .production
  | some _ => .error [⟨"SystemConfig", "environment"⟩]

def parseAIProvider : Option String → Except ConfigError AIProviderName
  | none => .ok .bedrock
  | some "bedrock" => .ok .bedrock
  | some "databricks" => .ok .databricks
  | some _ => .error [⟨"SystemConfig", "ai_provider"⟩]

def parseSearchProvider (fieldName : String) : Option String → Except ConfigError SearchProviderName
  | none => .ok .opensearch
  | some "opensearch" => .ok .opensearch
  | some "databricks_vector" => .ok .databricks_vector
  | some _ => .error [⟨"SystemConfig", fieldName⟩]

/-- config.py: SystemConfig, restricted to the fields the claims reason
about (environment/debug/log_level, the three selectors, the three
conditional provider sub-configs, and the unconditionally constructed
infrastructure sub-configs). -/
structure SystemConfig where
  environment : EnvName
  debug : Bool
  log_level : String
  ai_provider : AIProviderName
  search_provider : SearchProviderName
  vector_provider : SearchProviderName
  bedrock : Option BedrockConfig
  databricks : Option DatabricksConfig
  opensearch : Option OpenSearchConfig
  s3 : S3Config
  delta : DeltaConfig
  redis : RedisConfig
  security : SecurityConfig
deriving DecidableEq, Repr

/-- config.py SystemConfig.validate_bedrock_config: with pre=True,
always=True this validator runs once on the incoming field value v; when
ai_provider is "bedrock" it constructs BedrockConfig() if v is None, else
it passes v through unchanged. -/
def validate_bedrock_config (v : Option BedrockConfig) (e : Env)
    (ai : AIProviderName) : Option BedrockConfig :=
  if ai = .bedrock then
    match v with
    | none => some (BedrockConfig.fromEnv e)
    | some c => some c
  else v

/-- config.py SystemConfig.validate_databricks_config: the databricks
sub-config is activated when any of the three selectors names the
databricks backend; construction of DatabricksConfig() can fail on missing
required variables. -/
def validate_databricks_config (v : Option DatabricksConfig) (e : Env)
    (ai : AIProviderName) (sp vp : SearchProviderName) :
    Except ConfigError (Option DatabricksConfig) :=
  if ai = .databricks ∨ sp = .databricks_vector ∨ vp = .databricks_vector then
    match v with
    | none => (DatabricksConfig.fromEnv e).map some
    | some c => .ok (some c)
  else .ok v

/-- config.py SystemConfig.validate_opensearch_config: the opensearch
sub-config is activated when either search selector names opensearch. -/
def validate_opensearch_config (v : Option OpenSearchConfig) (e : Env)
    (sp vp : SearchProviderName) : Except ConfigError (Option OpenSearchConfig) :=
  if sp = .opensearch ∨ vp = .opensearch then
    match v with
    | none => (OpenSearchConfig.fromEnv e).map some
    | some c => .ok (some c)
  else .ok v

/-- One construction of SystemConfig() from the environment: parse the
root Literal fields, run the three provider-sub-config validators with
their field defaults (None), and construct the infrastructure
sub-configs.  Error semantics follow pydantic v1: a validator raising a
ValidationError (the databricks / opensearch validators) has it collected
as a field error and processing continues, and the collected errors are
raised together as the single ValidationError at the end; but an
exception raised by a Field(default_factory=...) — here S3Config() and
SecurityConfig(), declared after the provider fields — is NOT caught by
validate_model: it propagates raw, aborting the construction with only
its own error and discarding the validator errors collected so far (s3,
declared before security, aborts first).  The embedding tests the two
factory outcomes first because only the resulting error value matters;
no partial SystemConfig value exists on any failure path. -/
def SystemConfig.resolve (e : Env) : Except ConfigError SystemConfig :=
  match parseEnvironment e.ENVIRONMENT, parseAIProvider e.AI_PROVIDER,
        parseSearchProvider "search_provider" e.SEARCH_PROVIDER,
        parseSearchProvider "vector_provider" e.VECTOR_PROVIDER with
  | .ok envv, .ok ai, .ok sp, .ok vp =>
    match S3Config.fromEnv e with
    | .error errS3 => .error errS3
    | .ok s3c =>
      match SecurityConfig.fromEnv e with
      | .error errSec => .error errSec
      | .ok sec =>
        match validate_databricks_config none e ai sp vp,
              validate_opensearch_config none e sp vp with
        | .ok db, .ok os =>
            .ok { environment := envv,
                  debug := e.DEBUG.getD false,
                  log_level := e.LOG_LEVEL.getD "INFO",
                  ai_provider := ai,
                  search_provider := sp,
                  vector_provider := vp,
                  bedrock := validate_bedrock_config none e ai,
                  databricks := db,
                  opensearch := os,
                  s3 := s3c,
                  delta := DeltaConfig.fromEnv e,
                  redis := RedisConfig.fromEnv e,
                  security := sec }
        | d2, o2 => .error (errList d2 ++ errList o2)
  | r1, r2, r3, r4 => .error (errList r1 ++ errList r2 ++ errList r3 ++ errList r4)

/-- How many times each provider sub-config constructor runs during one
resolution.  Each pydantic validator runs exactly once per SystemConfig
construction, and SystemConfig.resolve passes each field its default
None, so a validator invokes its constructor precisely when its
activation condition holds (see the validate_*_none lemmas below, which
tie these counts to the validator bodies). -/
structure ConstructionCount where
  bedrock : Nat
  databricks : Nat
  opensearch : Nat
deriving DecidableEq, Repr

def constructorCalls (ai : AIProviderName) (sp vp : SearchProviderName) : ConstructionCount :=
  { bedrock := if ai = .bedrock then 1 else 0,
    databricks := if ai = .databricks ∨ sp = .databricks_vector ∨ vp = .databricks_vector then 1 else 0,
    opensearch := if sp = .opensearch ∨ vp = .opensearch then 1 else 0 }

/-- config.py get_settings, decorated with lru_cache: on a cache hit the
cached snapshot is returned without constructing anything (construction
count 0); on a miss SystemConfig() is constructed once and cached.
lru_cache does not cache exceptions, so a failing construction leaves the
cache empty.  The state (the cache) is passed explicitly. -/
def get_settings (e : Env) (cache : Option SystemConfig) :
    Except ConfigError (SystemConfig × Option SystemConfig × Nat) :=
  match cache with
  | some s => .ok (s, some s, 0)
  | none =>
    match SystemConfig.resolve e with
    | .ok s => .ok (s, some s, 1)
    | .error err => .error err

/-- n successive calls of get_settings threading the cache, returning the
list of returned snapshots, the final cache and the total number of
SystemConfig constructions. -/
def get_settingsIter (e : Env) : Nat → Option SystemConfig →
    Except ConfigError (List SystemConfig × Option SystemConfig × Nat)
  | 0, cache => .ok ([], cache, 0)
  | n + 1, cache =>
    match get_settings e cache with
    | .ok (s, cache2, k) =>
      match get_settingsIter e n cache2 with
      | .ok (rest, cacheF, kr) => .ok (s :: rest, cacheF, k + kr)
      | .error err => .error err
    | .error err => .error err

/-!
providers.py: data contracts.  These pydantic BaseModel classes declare no
validator and no Field constraint, so pydantic accepts every well-typed
assignment; the construct functions below mirror that (they are the
fallible construction entry points and always succeed on typed input).
-/

/-- Python datetime, modelled as epoch microseconds. -/
abbrev PyDateTime := Int

/-- providers.py SearchType: str Enum with three members. -/
inductive SearchType
  | keyword
  | semantic
  | hybrid
deriving DecidableEq, Repr

/-- providers.py DocumentType: str Enum, CSR and TMF. -/
inductive DocumentType
  | CSR
  | TMF
deriving DecidableEq, Repr

/-- providers.py SearchFilters: all fields Optional with default None.
Dict[str, datetime] is modelled as a string-keyed association list. -/
structure SearchFilters where
  document_type : Option DocumentType := none
  study_id : Option String := none
  section_codes : Option (List String) := none
  date_range : Option (List (String × PyDateTime)) := none
  access_level : Option String := none
deriving DecidableEq, Repr

/-- providers.py SearchQuery: text is required; search_type, filters,
limit, offset have defaults.  limit and offset are plain ints — the class
declares no bound on either. -/
structure SearchQuery where
  text : String
  search_type : SearchType := .keyword
  filters : SearchFilters := {}
  limit : Int := 20
  offset : Int := 0
deriving DecidableEq, Repr

/-- pydantic construction of a SearchQuery: the model declares no
validator and no Field constraint, so any well-typed input is accepted. -/
def SearchQuery.construct (text : String) (search_type : SearchType)
    (filters : SearchFilters) (limit offset : Int) : Except String SearchQuery :=
  .ok { text := text, search_type := search_type, filters := filters,
        limit := limit, offset := offset }

/-- providers.py Citation: all fields plain typed fields; the class
declares no validator and no constraint on confidence_score or
provenance_chain. -/
structure Citation where
  citation_id : String
  document_id : String
  page_number : Int
  section_reference : String
  text_excerpt : String
  confidence_score : Rat
  provenance_chain : List String
  created_at : PyDateTime
deriving DecidableEq, Repr

/-- pydantic construction of a Citation: no validators are declared, so
any well-typed input is accepted and stored unchanged. -/
def Citation.construct (citation_id document_id : String) (page_number : Int)
    (section_reference text_excerpt : String) (confidence_score : Rat)
    (provenance_chain : List String) (created_at : PyDateTime) :
    Except String Citation :=
  .ok { citation_id := citation_id, document_id := document_id,
        page_number := page_number, section_reference := section_reference,
        text_excerpt := text_excerpt, confidence_score := confidence_score,
        provenance_chain := provenance_chain, created_at := created_at }

/-- providers.py EmbeddingResponse: embedding, model_info, dimension,
generated_at are independent fields; no validator relates
len(embedding) to dimension.  Dict[str, Any] is modelled as a
string-keyed association list (its value type is irrelevant here). -/
structure EmbeddingResponse where
  embedding : List Rat
  model_info : List (String × String)
  dimension : Int
  generated_at : PyDateTime
deriving DecidableEq, Repr

/-- pydantic construction of an EmbeddingResponse: no validators are
declared, so any well-typed input is accepted. -/
def EmbeddingResponse.construct (embedding : List Rat)
    (model_info : List (String × String)) (dimension : Int)
    (generated_at : PyDateTime) : Except String EmbeddingResponse :=
  .ok { embedding := embedding, model_info := model_info,
        dimension := dimension, generated_at := generated_at }

/-!
Wire form of SearchQuery: what pydantic emits on serialization (enum
members become their string values, Optional None stays absent, the other
fields are carried verbatim) and parses back on deserialization (the enum
strings are decoded, and decoding an unknown member fails).
-/

def SearchType.toWire : SearchType → String
  | .keyword => "keyword"
  | .semantic => "semantic"
  | .hybrid => "hybrid"

def SearchType.ofWire (s : String) : Except String SearchType :=
  if s = "keyword" then .ok .keyword
  else if s = "semantic" then .ok .semantic
  else if s = "hybrid" then .ok .hybrid
  else .error ("value is not a valid enumeration member: " ++ s)

def DocumentType.toWire : DocumentType → String
  | .CSR => "CSR"
  | .TMF => "TMF"

def DocumentType.ofWire (s : String) : Except String DocumentType :=
  if s = "CSR" then .ok .CSR
  else if s = "TMF" then .ok .TMF
  else .error ("value is not a valid enumeration member: " ++ s)

/-- Serialized SearchFilters. -/
structure WireFilters where
  document_type : Option String
  study_id : Option String
  section_codes : Option (List String)
  date_range : Option (List (String × PyDateTime))
  access_level : Option String
deriving DecidableEq, Repr

/-- Serialized SearchQuery. -/
structure WireQuery where
  text : String
  search_type : String
  filters : WireFilters
  limit : Int
  offset : Int
deriving DecidableEq, Repr

def SearchFilters.toWire (f : SearchFilters) : WireFilters :=
  { document_type := f.document_type.map DocumentType.toWire,
    study_id := f.study_id,
    section_codes := f.section_codes,
    date_range := f.date_range,
    access_level := f.access_level }

def SearchFilters.ofWire (w : WireFilters) : Except String SearchFilters :=
  match w.document_type with
  | none =>
      .ok { document_type := none, study_id := w.study_id,
            section_codes := w.section_codes, date_range := w.date_range,
            access_level := w.access_level }
  | some s =>
    match DocumentType.ofWire s with
    | .ok dt =>
        .ok { document_type := some dt, study_id := w.study_id,
              section_codes := w.section_codes, date_range := w.date_range,
              access_level := w.access_level }
    | .error err => .error err

def SearchQuery.toWire (q : SearchQuery) : WireQuery :=
  { text := q.text, search_type := q.search_type.toWire,
    filters := q.filters.toWire, limit := q.limit, offset := q.offset }

def SearchQuery.ofWire (w : WireQuery) : Except String SearchQuery :=
  match SearchType.ofWire w.search_type with
  | .error err => .error err
  | .ok st =>
    match SearchFilters.ofWire w.filters with
    | .error err => .error err
    | .ok fs =>
        .ok { text := w.text, search_type := st, filters := fs,
              limit := w.limit, offset := w.offset }

/-!
providers.py: ProviderFactory.  The three class-level dicts map provider
names to provider classes; `create_*` looks the name up and instantiates
the class, raising ValueError on an unknown name.  A Python class object
is modelled by an opaque identifier; instantiating it yields an instance
tagged with the class it came from.  Python dict assignment keeps the
key's position and overwrites its value; dictInsert mirrors that.
-/

/-- A provider implementation class (a Python `type` object). -/
structure ProviderClass where
  classId : Nat
deriving DecidableEq, Repr

/-- An instance freshly constructed from a provider class. -/
structure ProviderInstance where
  ofClass : ProviderClass
deriving DecidableEq, Repr

/-- One registry dict: insertion-ordered association list with unique keys. -/
abbrev ProviderDict := List (String × ProviderClass)

/-- Python dict assignment d[k] = v: overwrite in place if k is present,
else append at the end. -/
def dictInsert (d : ProviderDict) (k : String) (v : ProviderClass) : ProviderDict :=
  if d.any (fun p => p.1 = k) then
    d.map (fun p => if p.1 = k then (k, v) else p)
  else d ++ [(k, v)]

/-- Python dict lookup d.get(k) / `k in d`. -/
def dictGet (d : ProviderDict) (k : String) : Option ProviderClass :=
  (d.find? (fun p => p.1 = k)).map Prod.snd

/-- providers.py ProviderFactory: the three class-level registries.  They
are module-global mutable state in Python; the embedding passes the state
explicitly. -/
structure ProviderFactory where
  _search_providers : ProviderDict := []
  _vector_providers : ProviderDict := []
  _ai_providers : ProviderDict := []
deriving DecidableEq, Repr

def ProviderFactory.register_search_provider (s : ProviderFactory)
    (name : String) (provider_class : ProviderClass) : ProviderFactory :=
  { s with _search_providers := dictInsert s._search_providers name provider_class }

def ProviderFactory.register_vector_provider (s : ProviderFactory)
    (name : String) (provider_class : ProviderClass) : ProviderFactory :=
  { s with _vector_providers := dictInsert s._vector_providers name provider_class }

def ProviderFactory.register_ai_provider (s : ProviderFactory)
    (name : String) (provider_class : ProviderClass) : ProviderFactory :=
  { s with _ai_providers := dictInsert s._ai_providers name provider_class }

def ProviderFactory.create_search_provider (s : ProviderFactory)
    (provider_name : String) : Except String ProviderInstance :=
  match dictGet s._search_providers provider_name with
  | none => .error ("Unknown search provider: " ++ provider_name)
  | some cls => .ok { ofClass := cls }

def ProviderFactory.create_vector_provider (s : ProviderFactory)
    (provider_name : String) : Except String ProviderInstance :=
  match dictGet s._vector_providers provider_name with
  | none => .error ("Unknown vector provider: " ++ provider_name)
  | some cls => .ok { ofClass := cls }

def ProviderFactory.create_ai_provider (s : ProviderFactory)
    (provider_name : String) : Except String ProviderInstance :=
  match dictGet s._ai_providers provider_name with
  | none => .error ("Unknown AI provider: " ++ provider_name)
  | some cls => .ok { ofClass := cls }

/-- Whether the character sequence pat occurs contiguously in s (used to
ask whether an error message mentions a given registered name). -/
def charsHavePrefix : List Char → List Char → Bool
  | [], _ => true
  | _ :: _, [] => false
  | a :: as, b :: bs => a = b && charsHavePrefix as bs

def charsOccur (pat : List Char) : List Char → Bool
  | [] => charsHavePrefix pat []
  | c :: cs => charsHavePrefix pat (c :: cs) || charsOccur pat cs

def strContains (s pat : String) : Bool :=
  charsOccur pat.data s.data

/-!
Helper lemmas about the registry dictionaries.
-/

theorem dictGet_cons (k0 : String) (v0 : ProviderClass) (d : ProviderDict) (k : String) :
    dictGet ((k0, v0) :: d) k = if k0 = k then some v0 else dictGet d k := by
  by_cases h : k0 = k <;> simp [dictGet, List.find?, h]

theorem dictInsert_cons_ne (k0 : String) (v0 : ProviderClass) (tl : ProviderDict)
    (k : String) (v : ProviderClass) (h : ¬ k0 = k) :
    dictInsert ((k0, v0) :: tl) k v = (k0, v0) :: dictInsert tl k v := by
  by_cases ht : tl.any (fun p => p.1 = k) <;>
    simp [dictInsert, List.any_cons, h, ht]

theorem dictGet_dictInsert (d : ProviderDict) (k : String) (v : ProviderClass) :
    dictGet (dictInsert d k v) k = some v := by
  induction d with
  | nil => simp [dictInsert, dictGet, List.find?]
  | cons hd tl ih =>
    rcases hd with ⟨k0, v0⟩
    by_cases h : k0 = k
    · subst h
      simp [dictInsert, dictGet, List.any_cons, List.find?]
    · rw [dictInsert_cons_ne k0 v0 tl k v h, dictGet_cons]
      simp [h, ih]

/-- C3 (counterexample): with only "alpha" registered as a search
provider, asking for "beta" produces exactly the message
"Unknown search provider: beta", which does not mention the registered
name "alpha" — so the error does not include the set of currently
registered names, contrary to the claim. -/
theorem C3_counterexample :
    ProviderFactory.create_search_provider
        (ProviderFactory.register_search_provider {} "alpha" ⟨1⟩) "beta" =
      .error "Unknown search provider: beta" ∧
    strContains "Unknown search provider: beta" "alpha" = false :=
  ⟨rfl, rfl⟩

/-- C3 (amended): for every (capability, name) pair with no registered
constructor in THAT capability's registry — regardless of what the other
two registries hold, e.g. the same name registered under a different
capability — create raises a ValueError whose message names the
capability kind and the requested name ("Unknown search provider: name",
and the vector/AI analogues); it never returns an instance.  The message
does not include the set of currently registered names for that
capability. -/
theorem C3_unknown_provider_error (f : ProviderFactory) (name : String) :
    (dictGet f._search_providers name = none →
      f.create_search_provider name = .error ("Unknown search provider: " ++ name)) ∧
    (dictGet f._vector_providers name = none →
      f.create_vector_provider name = .error ("Unknown vector provider: " ++ name)) ∧
    (dictGet f._ai_providers name = none →
      f.create_ai_provider name = .error ("Unknown AI provider: " ++ name)) :=
  ⟨fun hs => by simp [ProviderFactory.create_search_provider, hs],
   fun hv => by simp [ProviderFactory.create_vector_provider, hv],
   fun ha => by simp [ProviderFactory.create_ai_provider, ha]⟩

/-- C3 witness: in a factory where "serviceY" is registered only as a
search provider, requesting "serviceY" as a vector or AI provider fails
with the capability-specific message, and requesting the totally
unregistered "unknown-model" as a search provider fails likewise. -/
theorem C3_witness :
    (dictGet (ProviderFactory.register_search_provider {} "serviceY" ⟨4⟩)._vector_providers
        "serviceY" = none ∧
     dictGet (ProviderFactory.register_search_provider {} "serviceY" ⟨4⟩)._ai_providers
        "serviceY" = none ∧
     dictGet (ProviderFactory.register_search_provider {} "serviceY" ⟨4⟩)._search_providers
        "unknown-model" = none) ∧
    ((ProviderFactory.register_search_provider {} "serviceY" ⟨4⟩).create_vector_provider
        "serviceY" = .error ("Unknown vector provider: " ++ "serviceY") ∧
     (ProviderFactory.register_search_provider {} "serviceY" ⟨4⟩).create_ai_provider
        "serviceY" = .error ("Unknown AI provider: " ++ "serviceY") ∧
     (ProviderFactory.register_search_provider {} "serviceY" ⟨4⟩).create_search_provider
        "unknown-model" = .error ("Unknown search provider: " ++ "unknown-model")) :=
  ⟨⟨rfl, rfl, rfl⟩,
   ⟨(C3_unknown_provider_error
       (ProviderFactory.register_search_provider {} "serviceY" ⟨4⟩) "serviceY").2.1 rfl,
    (C3_unknown_provider_error
       (ProviderFactory.register_search_provider {} "serviceY" ⟨4⟩) "serviceY").2.2 rfl,
    (C3_unknown_provider_error
       (ProviderFactory.register_search_provider {} "serviceY" ⟨4⟩) "unknown-model").1 rfl⟩⟩

/-- C7: registering twice under the same (capability, name) pair is
errorless (registration is total) and overwrites: a subsequent create for
that pair instantiates the most recently registered class, for each of
the three capabilities. -/
theorem C7_last_registration_wins (f : ProviderFactory) (name : String)
    (c1 c2 : ProviderClass) :
    ((f.register_search_provider name c1).register_search_provider name c2).create_search_provider
        name = .ok { ofClass := c2 } ∧
    ((f.register_vector_provider name c1).register_vector_provider name c2).create_vector_provider
        name = .ok { ofClass := c2 } ∧
    ((f.register_ai_provider name c1).register_ai_provider name c2).create_ai_provider
        name = .ok { ofClass := c2 } := by
  refine ⟨?_, ?_, ?_⟩ <;>
    simp [ProviderFactory.register_search_provider, ProviderFactory.register_vector_provider,
      ProviderFactory.register_ai_provider, ProviderFactory.create_search_provider,
      ProviderFactory.create_vector_provider, ProviderFactory.create_ai_provider,
      dictGet_dictInsert]

/-- C10: the three per-capability registries are independent: registering
a search provider leaves the vector and AI registries unchanged (and
symmetrically for the other two), and create consults only its own
capability's registry, so a name registered only as a search provider
still fails create as a vector or AI provider. -/
theorem C10_registries_independent (f : ProviderFactory) (name : String)
    (cls : ProviderClass)
    (hv : dictGet f._vector_providers name = none)
    (ha : dictGet f._ai_providers name = none) :
    ((f.register_search_provider name cls)._vector_providers = f._vector_providers ∧
     (f.register_search_provider name cls)._ai_providers = f._ai_providers) ∧
    ((f.register_vector_provider name cls)._search_providers = f._search_providers ∧
     (f.register_vector_provider name cls)._ai_providers = f._ai_providers) ∧
    ((f.register_ai_provider name cls)._search_providers = f._search_providers ∧
     (f.register_ai_provider name cls)._vector_providers = f._vector_providers) ∧
    (f.register_search_provider name cls).create_vector_provider name =
      .error ("Unknown vector provider: " ++ name) ∧
    (f.register_search_provider name cls).create_ai_provider name =
      .error ("Unknown AI provider: " ++ name) := by
  refine ⟨⟨rfl, rfl⟩, ⟨rfl, rfl⟩, ⟨rfl, rfl⟩, ?_, ?_⟩
  · simp [ProviderFactory.register_search_provider, ProviderFactory.create_vector_provider, hv]
  · simp [ProviderFactory.register_search_provider, ProviderFactory.create_ai_provider, ha]

/-- C10 witness: in the empty factory, register "serviceX" as a search
provider only; it is absent from the other two registries and create for
the other capabilities fails. -/
theorem C10_witness :
    (dictGet (ProviderFactory._vector_providers {}) "serviceX" = none ∧
     dictGet (ProviderFactory._ai_providers {}) "serviceX" = none) ∧
    ((ProviderFactory.register_search_provider {} "serviceX" ⟨3⟩)._vector_providers =
        ProviderFactory._vector_providers {} ∧
     (ProviderFactory.register_search_provider {} "serviceX" ⟨3⟩)._ai_providers =
        ProviderFactory._ai_providers {} ∧
     (ProviderFactory.register_search_provider {} "serviceX" ⟨3⟩).create_vector_provider
        "serviceX" = .error ("Unknown vector provider: " ++ "serviceX") ∧
     (ProviderFactory.register_search_provider {} "serviceX" ⟨3⟩).create_ai_provider
        "serviceX" = .error ("Unknown AI provider: " ++ "serviceX")) :=
  ⟨⟨rfl, rfl⟩,
    ⟨(C10_registries_independent {} "serviceX" ⟨3⟩ rfl rfl).1.1,
     (C10_registries_independent {} "serviceX" ⟨3⟩ rfl rfl).1.2,
     (C10_registries_independent {} "serviceX" ⟨3⟩ rfl rfl).2.2.2.1,
     (C10_registries_independent {} "serviceX" ⟨3⟩ rfl rfl).2.2.2.2⟩⟩

/-- C4 (counterexample): a Citation with an empty provenance chain and a
confidence score of 3/2 (= 1.5) is accepted at construction, and the
stored score is exactly 3/2 — outside [0,1] and not clamped — so the
claimed construction-time rejection does not happen. -/
theorem C4_counterexample :
    Citation.construct "c1" "d1" 1 "s1" "excerpt" (3/2) [] 0 =
      .ok { citation_id := "c1", document_id := "d1", page_number := 1,
            section_reference := "s1", text_excerpt := "excerpt",
            confidence_score := 3/2, provenance_chain := [], created_at := 0 } ∧
    ¬ ((3 : Rat)/2 ≤ 1) ∧ ([] : List String).length = 0 :=
  ⟨rfl, by norm_num, rfl⟩

/-- C4 (amended): Citation performs no construction-time validation: any
well-typed values — including an empty provenance chain and a confidence
score outside [0,1] — are accepted and stored unchanged (in particular,
never clamped). -/
theorem C4_citation_no_validation (cid did : String) (pn : Int)
    (sr te : String) (cs : Rat) (pc : List String) (ca : PyDateTime) :
    Citation.construct cid did pn sr te cs pc ca =
      .ok { citation_id := cid, document_id := did, page_number := pn,
            section_reference := sr, text_excerpt := te, confidence_score := cs,
            provenance_chain := pc, created_at := ca } :=
  rfl

/-- C5 (counterexample): a SearchQuery with limit = -5 and offset = -3 is
accepted at construction, so the claimed bounds (limit, offset ≥ 0) are
not enforced; no configured maximum on limit exists in the class either. -/
theorem C5_counterexample :
    SearchQuery.construct "trial" .keyword {} (-5) (-3) =
      .ok { text := "trial", search_type := .keyword, filters := {},
            limit := -5, offset := -3 } ∧
    (-5 : Int) < 0 ∧ (-3 : Int) < 0 :=
  ⟨rfl, by decide, by decide⟩

/-- C5 (amended): SearchQuery places no bounds on limit or offset: both
are plain ints (defaults 20 and 0) and construction accepts any values,
negative included; the source defines no maximum limit. -/
theorem C5_searchquery_unbounded (t : String) (st : SearchType)
    (f : SearchFilters) (l o : Int) :
    SearchQuery.construct t st f l o =
      .ok { text := t, search_type := st, filters := f, limit := l, offset := o } :=
  rfl

/-- C9 (counterexample): an EmbeddingResponse with a 1-element embedding
but declared dimension 5 is accepted at construction, so the claimed
length-equals-dimension invariant is not enforced. -/
theorem C9_counterexample :
    EmbeddingResponse.construct [1/2] [] 5 0 =
      .ok { embedding := [1/2], model_info := [], dimension := 5,
            generated_at := 0 } ∧
    ([(1 : Rat)/2].length : Int) ≠ 5 :=
  ⟨rfl, by decide⟩

/-- C9 (amended): EmbeddingResponse declares no validator relating the
embedding vector's length to the dimension field: construction accepts
any well-typed combination, matching or not. -/
theorem C9_embedding_no_dimension_check (emb : List Rat)
    (mi : List (String × String)) (dim : Int) (ts : PyDateTime) :
    EmbeddingResponse.construct emb mi dim ts =
      .ok { embedding := emb, model_info := mi, dimension := dim,
            generated_at := ts } :=
  rfl

/-- Deserializing the wire form of any SearchFilters value recovers it
exactly. -/
theorem SearchFilters.ofWire_toWire (f : SearchFilters) :
    SearchFilters.ofWire f.toWire = .ok f := by
  rcases f with ⟨dt, sid, sc, dr, al⟩
  cases dt with
  | none => rfl
  | some d => cases d <;> rfl

/-- C8: for every SearchQuery — every search-mode tag and every
combination of present and absent filter fields — serializing to the wire
form and deserializing back succeeds and returns a value equal
field-for-field to the original. -/
theorem C8_searchquery_roundtrip (q : SearchQuery) :
    SearchQuery.ofWire q.toWire = .ok q := by
  rcases q with ⟨t, st, f, l, o⟩
  cases st <;>
    simp [SearchQuery.toWire, SearchQuery.ofWire, SearchType.toWire,
      SearchType.ofWire, SearchFilters.ofWire_toWire]

/-!
Validator characterizations: with the field default None (the value each
validator receives during SystemConfig.resolve), a validator invokes its
backend constructor exactly when its activation condition holds, and
passes None through otherwise.  These lemmas justify constructorCalls.
-/

theorem validate_bedrock_none (e : Env) (ai : AIProviderName) :
    validate_bedrock_config none e ai =
      if ai = .bedrock then some (BedrockConfig.fromEnv e) else none := by
  cases ai <;> rfl

theorem validate_databricks_none (e : Env) (ai : AIProviderName)
    (sp vp : SearchProviderName) :
    validate_databricks_config none e ai sp vp =
      if ai = .databricks ∨ sp = .databricks_vector ∨ vp = .databricks_vector then
        (DatabricksConfig.fromEnv e).map some
      else .ok none := by
  by_cases h : ai = .databricks ∨ sp = .databricks_vector ∨ vp = .databricks_vector <;>
    simp [validate_databricks_config, h]

theorem validate_opensearch_none (e : Env) (sp vp : SearchProviderName) :
    validate_opensearch_config none e sp vp =
      if sp = .opensearch ∨ vp = .opensearch then
        (OpenSearchConfig.fromEnv e).map some
      else .ok none := by
  by_cases h : sp = .opensearch ∨ vp = .opensearch <;>
    simp [validate_opensearch_config, h]

/-- Once the cache is populated with s, every further call returns s and
constructs nothing. -/
theorem get_settingsIter_cached (e : Env) (s : SystemConfig) (n : Nat) :
    get_settingsIter e n (some s) = .ok (List.replicate n s, some s, 0) := by
  induction n with
  | zero => rfl
  | succ n ih => simp [get_settingsIter, get_settings, ih, List.replicate_succ]

/-- C2: get_settings is idempotent and memoized — when resolution
succeeds with snapshot s, N calls (N ≥ 1) starting from the empty cache
return exactly the same snapshot s all N times and construct SystemConfig
exactly once (0 further constructions on the N-1 cache hits). -/
theorem C2_get_settings_memoized (e : Env) (s : SystemConfig) (n : Nat)
    (hres : SystemConfig.resolve e = .ok s) (hn : 0 < n) :
    get_settingsIter e n none = .ok (List.replicate n s, some s, 1) := by
  cases n with
  | zero => exact absurd hn (by simp)
  | succ n =>
    simp [get_settingsIter, get_settings, hres, get_settingsIter_cached,
      List.replicate_succ]

/-- A well-formed environment for the default selectors (ai=bedrock,
search=vector=opensearch): the opensearch endpoint and the two always-on
required infrastructure variables are set. -/
def envB : Env :=
  { OPENSEARCH_ENDPOINT := some "https://search.example.com",
    S3_BUCKET_NAME := some "clinical-docs",
    SECRET_KEY := some "sekrit" }

/-- The snapshot envB resolves to. -/
def snapB : SystemConfig :=
  { environment := .development,
    debug := false,
    log_level := "INFO",
    ai_provider := .bedrock,
    search_provider := .opensearch,
    vector_provider := .opensearch,
    bedrock := some (BedrockConfig.fromEnv envB),
    databricks := none,
    opensearch := some
      { endpoint := "https://search.example.com",
        region := "us-east-1",
        index_name := "clinical-documents",
        use_ssl := true,
        verify_certs := true },
    s3 :=
      { bucket_name := "clinical-docs",
        region := "us-east-1",
        csr_prefix := "csr/",
        tmf_prefix := "tmf/",
        processed_prefix := "processed/" },
    delta := DeltaConfig.fromEnv envB,
    redis := RedisConfig.fromEnv envB,
    security :=
      { secret_key := "sekrit",
        algorithm := "HS256",
        access_token_expire_minutes := 30,
        refresh_token_expire_days := 7,
        cors_origins := ["http://localhost:3000"],
        cors_allow_credentials := true } }

/-- C2 witness: at envB, resolution succeeds with snapB; three calls from
the empty cache return snapB three times with exactly one construction. -/
theorem C2_witness :
    SystemConfig.resolve envB = .ok snapB ∧ 0 < 3 ∧
    get_settingsIter envB 3 none = .ok (List.replicate 3 snapB, some snapB, 1) :=
  ⟨rfl, by decide, C2_get_settings_memoized envB snapB 3 rfl (by decide)⟩

/-- C1: in every successful resolution, a provider sub-config is non-null
iff at least one selector names that backend (only ai_provider can name
bedrock — the two search selectors range over opensearch and
databricks_vector); every present sub-config equals the single instance
constructed from the environment (so a backend named by two selectors
still yields exactly one instance); and each backend's constructor runs
exactly once when it is named, zero times when it is not. -/
theorem C1_provider_subconfig_iff (e : Env) (cfg : SystemConfig)
    (h : SystemConfig.resolve e = .ok cfg) :
    (cfg.bedrock.isSome ↔ cfg.ai_provider = .bedrock) ∧
    (cfg.databricks.isSome ↔
      (cfg.ai_provider = .databricks ∨ cfg.search_provider = .databricks_vector ∨
        cfg.vector_provider = .databricks_vector)) ∧
    (cfg.opensearch.isSome ↔
      (cfg.search_provider = .opensearch ∨ cfg.vector_provider = .opensearch)) ∧
    (∀ b, cfg.bedrock = some b → b = BedrockConfig.fromEnv e) ∧
    (∀ d, cfg.databricks = some d → DatabricksConfig.fromEnv e = .ok d) ∧
    (∀ o, cfg.opensearch = some o → OpenSearchConfig.fromEnv e = .ok o) ∧
    constructorCalls cfg.ai_provider cfg.search_provider cfg.vector_provider =
      { bedrock := if cfg.ai_provider = .bedrock then 1 else 0,
        databricks :=
          if cfg.ai_provider = .databricks ∨ cfg.search_provider = .databricks_vector ∨
              cfg.vector_provider = .databricks_vector then 1 else 0,
        opensearch :=
          if cfg.search_provider = .opensearch ∨ cfg.vector_provider = .opensearch
          then 1 else 0 } := by
  unfold SystemConfig.resolve at h
  split at h
  case _ envv ai sp vp hE hA hS hV =>
    split at h
    case _ errS3 hs3e =>
      simp at h
    case _ s3c hs3 =>
      split at h
      case _ errSec hsece =>
        simp at h
      case _ sec hsec =>
        split at h
        case _ db os hdb hos =>
          rw [Except.ok.injEq] at h
          subst h
          rw [validate_databricks_none] at hdb
          rw [validate_opensearch_none] at hos
          refine ⟨?_, ?_, ?_, ?_, ?_, ?_, rfl⟩
          · rw [validate_bedrock_none]
            by_cases hai : ai = .bedrock <;> simp [hai]
          · by_cases hact : ai = .databricks ∨ sp = .databricks_vector ∨ vp = .databricks_vector
            · rw [if_pos hact] at hdb
              cases hfe : DatabricksConfig.fromEnv e with
              | ok dd => rw [hfe] at hdb; simp [Except.map] at hdb; simp [← hdb, hact]
              | error err => rw [hfe] at hdb; simp [Except.map] at hdb
            · rw [if_neg hact] at hdb
              simp at hdb
              simp [hdb, hact]
          · by_cases hact : sp = .opensearch ∨ vp = .opensearch
            · rw [if_pos hact] at hos
              cases hfe : OpenSearchConfig.fromEnv e with
              | ok oo => rw [hfe] at hos; simp [Except.map] at hos; simp [← hos, hact]
              | error err => rw [hfe] at hos; simp [Except.map] at hos
            · rw [if_neg hact] at hos
              simp at hos
              simp [hos, hact]
          · intro b hb
            rw [validate_bedrock_none] at hb
            by_cases hai : ai = .bedrock
            · rw [if_pos hai] at hb
              exact (Option.some.injEq _ _ ▸ hb).symm
            · rw [if_neg hai] at hb
              simp at hb
          · intro d hd
            by_cases hact : ai = .databricks ∨ sp = .databricks_vector ∨ vp = .databricks_vector
            · rw [if_pos hact] at hdb
              cases hfe : DatabricksConfig.fromEnv e with
              | ok dd =>
                rw [hfe] at hdb
                simp [Except.map] at hdb
                rw [← hdb] at hd
                simp at hd
                rw [hd]
              | error err => rw [hfe] at hdb; simp [Except.map] at hdb
            · rw [if_neg hact] at hdb
              simp at hdb
              subst hdb
              simp at hd
          · intro o ho
            by_cases hact : sp = .opensearch ∨ vp = .opensearch
            · rw [if_pos hact] at hos
              cases hfe : OpenSearchConfig.fromEnv e with
              | ok oo =>
                rw [hfe] at hos
                simp [Except.map] at hos
                rw [← hos] at ho
                simp at ho
                rw [ho]
              | error err => rw [hfe] at hos; simp [Except.map] at hos
            · rw [if_neg hact] at hos
              simp at hos
              subst hos
              simp at ho
        case _ hne =>
          simp at h
  case _ hne =>
    simp at h

/-- The spec scenario environment: ai selects bedrock (B1) while both
search selectors select the databricks backend (S1), whose five required
variables are set; infrastructure variables are set; opensearch is named
by no selector. -/
def envD : Env :=
  { AI_PROVIDER := some "bedrock",
    SEARCH_PROVIDER := some "databricks_vector",
    VECTOR_PROVIDER := some "databricks_vector",
    DATABRICKS_WORKSPACE_URL := some "https://dbx.example.com",
    DATABRICKS_TOKEN := some "dapi-token",
    DATABRICKS_CLUSTER_ID := some "cluster-1",
    DATABRICKS_MODEL_ENDPOINT := some "model-ep",
    DATABRICKS_VECTOR_ENDPOINT := some "vector-ep",
    S3_BUCKET_NAME := some "clinical-docs",
    SECRET_KEY := some "sekrit" }

/-- The snapshot envD resolves to: bedrock and databricks sub-configs
present (databricks exactly once although named by two selectors),
opensearch null. -/
def snapD : SystemConfig :=
  { environment := .development,
    debug := false,
    log_level := "INFO",
    ai_provider := .bedrock,
    search_provider := .databricks_vector,
    vector_provider := .databricks_vector,
    bedrock := some (BedrockConfig.fromEnv envD),
    databricks := some
      { workspace_url := "https://dbx.example.com",
        token := "dapi-token",
        cluster_id := "cluster-1",
        model_serving_endpoint := "model-ep",
        vector_search_endpoint := "vector-ep" },
    opensearch := none,
    s3 :=
      { bucket_name := "clinical-docs",
        region := "us-east-1",
        csr_prefix := "csr/",
        tmf_prefix := "tmf/",
        processed_prefix := "processed/" },
    delta := DeltaConfig.fromEnv envD,
    redis := RedisConfig.fromEnv envD,
    security :=
      { secret_key := "sekrit",
        algorithm := "HS256",
        access_token_expire_minutes := 30,
        refresh_token_expire_days := 7,
        cors_origins := ["http://localhost:3000"],
        cors_allow_credentials := true } }

/-- C1 witness: envD resolves successfully to snapD, where the
if-and-only-if activation, the single-instance property and the
construction counts all hold concretely. -/
theorem C1_witness :
    SystemConfig.resolve envD = .ok snapD ∧
    ((snapD.bedrock.isSome ↔ snapD.ai_provider = .bedrock) ∧
     (snapD.databricks.isSome ↔
       (snapD.ai_provider = .databricks ∨ snapD.search_provider = .databricks_vector ∨
         snapD.vector_provider = .databricks_vector)) ∧
     (snapD.opensearch.isSome ↔
       (snapD.search_provider = .opensearch ∨ snapD.vector_provider = .opensearch)) ∧
     (∀ b, snapD.bedrock = some b → b = BedrockConfig.fromEnv envD) ∧
     (∀ d, snapD.databricks = some d → DatabricksConfig.fromEnv envD = .ok d) ∧
     (∀ o, snapD.opensearch = some o → OpenSearchConfig.fromEnv envD = .ok o) ∧
     constructorCalls snapD.ai_provider snapD.search_provider snapD.vector_provider =
       { bedrock := if snapD.ai_provider = .bedrock then 1 else 0,
         databricks :=
           if snapD.ai_provider = .databricks ∨ snapD.search_provider = .databricks_vector ∨
               snapD.vector_provider = .databricks_vector then 1 else 0,
         opensearch :=
           if snapD.search_provider = .opensearch ∨ snapD.vector_provider = .opensearch
           then 1 else 0 }) :=
  ⟨rfl, C1_provider_subconfig_iff envD snapD rfl⟩

/-- When any required Databricks variable is unset, constructing the
sub-config fails with exactly the list of missing fields, each tagged
with the DatabricksConfig family. -/
theorem DatabricksConfig.fromEnv_of_missing (e : Env)
    (h : DatabricksConfig.requiredMissing e ≠ []) :
    DatabricksConfig.fromEnv e =
      .error ((DatabricksConfig.requiredMissing e).map fun f =>
        ⟨"DatabricksConfig", f⟩) := by
  unfold DatabricksConfig.fromEnv
  cases hw : e.DATABRICKS_WORKSPACE_URL <;> cases ht : e.DATABRICKS_TOKEN <;>
    cases hc : e.DATABRICKS_CLUSTER_ID <;> cases hm : e.DATABRICKS_MODEL_ENDPOINT <;>
      cases hv : e.DATABRICKS_VECTOR_ENDPOINT <;>
        simp_all [DatabricksConfig.requiredMissing]

/-- An environment that activates databricks (via AI_PROVIDER) while all
five Databricks variables — and the infrastructure variables — are
unset. -/
def envM : Env :=
  { AI_PROVIDER := some "databricks" }

/-- C6 (counterexample): at envM the databricks backend is activated and
all five of its required variables are unset, yet resolution fails with
an error naming only S3Config.bucket_name: the S3 default_factory raises
first (uncaught by pydantic v1), discarding the collected databricks
validator errors, so the single error does not name the activated
backend's missing fields or its family, contrary to the claim. -/
theorem C6_counterexample :
    parseAIProvider envM.AI_PROVIDER = .ok .databricks ∧
    DatabricksConfig.requiredMissing envM ≠ [] ∧
    SystemConfig.resolve envM = .error [⟨"S3Config", "bucket_name"⟩] ∧
    FieldError.mk "DatabricksConfig" "workspace_url" ∉
      [(⟨"S3Config", "bucket_name"⟩ : FieldError)] :=
  ⟨rfl, by decide, rfl, by decide⟩

/-- C6 (amended): if the databricks backend is activated but its
sub-config lacks a required field, resolution always fails — no partial
or degraded snapshot exists and no required field is silently defaulted;
and whenever the always-constructed infrastructure sub-configs (S3,
security) build successfully, the failure is a single error value naming
every missing field together with the DatabricksConfig backend family.
(When an infrastructure default_factory itself fails, its error alone is
raised and the validator errors are discarded — see C6_counterexample.) -/
theorem C6_missing_required_field_fatal (e : Env)
    (envv : EnvName) (ai : AIProviderName) (sp vp : SearchProviderName)
    (hE : parseEnvironment e.ENVIRONMENT = .ok envv)
    (hA : parseAIProvider e.AI_PROVIDER = .ok ai)
    (hS : parseSearchProvider "search_provider" e.SEARCH_PROVIDER = .ok sp)
    (hV : parseSearchProvider "vector_provider" e.VECTOR_PROVIDER = .ok vp)
    (hact : ai = .databricks ∨ sp = .databricks_vector ∨ vp = .databricks_vector)
    (hmiss : DatabricksConfig.requiredMissing e ≠ []) :
    (∀ cfg : SystemConfig, SystemConfig.resolve e ≠ .ok cfg) ∧
    (∀ s3c sec, S3Config.fromEnv e = .ok s3c → SecurityConfig.fromEnv e = .ok sec →
      ∃ errs : ConfigError, SystemConfig.resolve e = .error errs ∧ errs ≠ [] ∧
        ∀ f ∈ DatabricksConfig.requiredMissing e,
          FieldError.mk "DatabricksConfig" f ∈ errs) := by
  have hdb : validate_databricks_config none e ai sp vp =
      .error ((DatabricksConfig.requiredMissing e).map fun f =>
        ⟨"DatabricksConfig", f⟩) := by
    rw [validate_databricks_none, if_pos hact,
      DatabricksConfig.fromEnv_of_missing e hmiss]
    rfl
  constructor
  · intro cfg hcfg
    unfold SystemConfig.resolve at hcfg
    split at hcfg
    case _ envv2 ai2 sp2 vp2 hE2 hA2 hS2 hV2 =>
      have hai : ai = ai2 := by
        have h2 := hA.symm.trans hA2
        injection h2
      have hsp : sp = sp2 := by
        have h2 := hS.symm.trans hS2
        injection h2
      have hvp : vp = vp2 := by
        have h2 := hV.symm.trans hV2
        injection h2
      subst hai
      subst hsp
      subst hvp
      split at hcfg
      case _ errS3 hs3e =>
        exact Except.noConfusion hcfg
      case _ s3c2 hs3b =>
        split at hcfg
        case _ errSec hsece =>
          exact Except.noConfusion hcfg
        case _ sec2 hsecb =>
          split at hcfg
          case _ db os hdb2 hos2 =>
            rw [hdb] at hdb2
            exact Except.noConfusion hdb2
          case _ hne =>
            exact Except.noConfusion hcfg
    case _ hne =>
      exact Except.noConfusion hcfg
  · intro s3c sec hs3 hsec
    refine ⟨((DatabricksConfig.requiredMissing e).map fun f =>
        (⟨"DatabricksConfig", f⟩ : FieldError)) ++
        errList (validate_opensearch_config none e sp vp), ?_, ?_, ?_⟩
    · unfold SystemConfig.resolve
      rw [hE, hA, hS, hV]
      simp only []
      rw [hs3, hsec, hdb]
      cases validate_opensearch_config none e sp vp <;> simp [errList]
    · intro hnil
      rcases List.append_eq_nil.mp hnil with ⟨h1, _⟩
      exact hmiss (List.map_eq_nil_iff.mp h1)
    · intro f hf
      exact List.mem_append_left _ (List.mem_map_of_mem _ hf)

/-- An environment that activates databricks (via AI_PROVIDER) with all
five Databricks variables unset, while the always-on infrastructure
variables (S3 bucket, secret key) are set. -/
def envN : Env :=
  { AI_PROVIDER := some "databricks",
    S3_BUCKET_NAME := some "clinical-docs",
    SECRET_KEY := some "sekrit" }

/-- C6 witness: at envN all hypotheses hold concretely; resolution
produces no snapshot, and — the infrastructure sub-configs building
fine — the single error names every missing DatabricksConfig field. -/
theorem C6_witness :
    (parseEnvironment envN.ENVIRONMENT = .ok .development ∧
     parseAIProvider envN.AI_PROVIDER = .ok .databricks ∧
     parseSearchProvider "search_provider" envN.SEARCH_PROVIDER = .ok .opensearch ∧
     parseSearchProvider "vector_provider" envN.VECTOR_PROVIDER = .ok .opensearch ∧
     DatabricksConfig.requiredMissing envN ≠ []) ∧
    ((∀ cfg : SystemConfig, SystemConfig.resolve envN ≠ .ok cfg) ∧
     (∀ s3c sec, S3Config.fromEnv envN = .ok s3c →
        SecurityConfig.fromEnv envN = .ok sec →
        ∃ errs : ConfigError, SystemConfig.resolve envN = .error errs ∧ errs ≠ [] ∧
          ∀ f ∈ DatabricksConfig.requiredMissing envN,
            FieldError.mk "DatabricksConfig" f ∈ errs)) :=
  ⟨⟨rfl, rfl, rfl, rfl, by decide⟩,
    C6_missing_required_field_fatal envN .development .databricks .opensearch .opensearch
      rfl rfl rfl rfl (Or.inl rfl) (by decide)⟩
